import Mathlib

/-!
Shallow embedding of the session-management and resilient RPC-invocation
core of oslo.vmware (oslo_vmware/api.py, oslo_vmware/exceptions.py,
oslo_vmware/service.py), together with theorems settling the claims about
its specification.

Conventions of the embedding:
* Python exception values become constructors of the inductive `RaisedError`;
  the Python class hierarchy (which class inherits from `VimException`) is
  captured by the predicate `isVimException`.
* Machine-level string formatting of exception descriptions is modelled by
  `vimFaultException_description`, keeping the same information content
  (message, fault list, details) as `VimFaultException.description` while
  eliding Python repr punctuation.
* Stateful methods become explicit state-passing functions; the retry loop
  driven by `loopingcall.DynamicLoopingCall` (a module of this repository
  that is not present under src/) is modelled from the spec as fuel-bounded
  recursion: invoke, catch, maybe sleep, maybe recurse.
-/

namespace OsloVmware

/-! ## Fault taxonomy (oslo_vmware/exceptions.py) -/

/-- Fault-name constant `NOT_AUTHENTICATED` of exceptions.py. -/
def NOT_AUTHENTICATED : String := "NotAuthenticated"

/-- Fault-name constant `SECURITY_ERROR` of exceptions.py. -/
def SECURITY_ERROR : String := "SecurityError"

/-- The named subclasses of `VimException` that populate the fault registry
(exceptions.py lines 193-261). Each Python class becomes one constructor. -/
inductive FaultClass where
  | AlreadyExistsException
  | CannotDeleteFileException
  | DuplicateName
  | FileAlreadyExistsException
  | FileFaultException
  | FileLockedException
  | FileNotFoundException
  | InvalidPowerStateException
  | InvalidPropertyException
  | ManagedObjectNotFoundException
  | NoDiskSpaceException
  | NoPermissionException
  | NotAuthenticatedException
  | TaskInProgress
  | ToolsUnavailableException
  deriving DecidableEq, Repr

/-- The initial population of `_fault_classes_registry`
(exceptions.py lines 266-282), in source order. -/
def fault_classes_registry : List (String × FaultClass) :=
  [("AlreadyExists", .AlreadyExistsException),
   ("CannotDeleteFile", .CannotDeleteFileException),
   ("DuplicateName", .DuplicateName),
   ("FileAlreadyExists", .FileAlreadyExistsException),
   ("FileFault", .FileFaultException),
   ("FileLocked", .FileLockedException),
   ("FileNotFound", .FileNotFoundException),
   ("InvalidPowerState", .InvalidPowerStateException),
   ("InvalidProperty", .InvalidPropertyException),
   ("ManagedObjectNotFound", .ManagedObjectNotFoundException),
   ("NoDiskSpace", .NoDiskSpaceException),
   ("NoPermission", .NoPermissionException),
   ("NotAuthenticated", .NotAuthenticatedException),
   ("TaskInProgress", .TaskInProgress),
   ("ToolsUnavailable", .ToolsUnavailableException)]

/-- `get_fault_class(name)` (exceptions.py lines 285-291): dictionary lookup
returning the registered class, or `none` (Python `None`) when absent. -/
def get_fault_class (name : String) : Option FaultClass :=
  (fault_classes_registry.find? (fun p => p.1 == name)).map (fun p => p.2)

/-- Default `msg_fmt` text of each registered fault class
(exceptions.py lines 193-261). -/
def FaultClass.msg_fmt : FaultClass → String
  | .AlreadyExistsException => "Resource already exists."
  | .CannotDeleteFileException => "Cannot delete file."
  | .DuplicateName => "Duplicate name."
  | .FileAlreadyExistsException => "File already exists."
  | .FileFaultException => "File fault."
  | .FileLockedException => "File locked."
  | .FileNotFoundException => "File not found."
  | .InvalidPowerStateException => "Invalid power state."
  | .InvalidPropertyException => "Invalid property."
  | .ManagedObjectNotFoundException => "Managed object not found."
  | .NoDiskSpaceException => "Insufficient disk space."
  | .NoPermissionException => "No Permission."
  | .NotAuthenticatedException => "Not Authenticated."
  | .TaskInProgress => "Entity has another operation in process."
  | .ToolsUnavailableException => "VMware Tools is not running."

/-- Result of `translate_fault` (exceptions.py lines 294-317): either a
specific registered `VimException` subclass, or the generic
`VimFaultException` fallback carrying the unrecognized fault name. -/
inductive TranslatedException where
  | specific (cls : FaultClass) (message : String)
  | vimFault (fault_list : List String) (message : String)
  deriving DecidableEq, Repr

/-- `translate_fault(localized_method_fault, excep_msg)` (exceptions.py lines
294-317), with the fault already decomposed into the name of its fault class
(`localized_method_fault.fault.__class__.__name__`) and the message
(`excep_msg`, defaulting in the source to the localizedMessage). -/
def translate_fault (fault_name : String) (excep_msg : String) : TranslatedException :=
  match get_fault_class fault_name with
  | some cls => .specific cls excep_msg
  | none => .vimFault [fault_name] excep_msg

/-! ## Exception values (oslo_vmware/exceptions.py class hierarchy) -/

/-- Python `str(list)` and the `details` part of
`VimFaultException.description` use repr punctuation; the embedding keeps
the information content with plain separators. -/
def details_str (details : List (String × String)) : String :=
  String.intercalate ", " (details.map (fun p => p.1 ++ ": " ++ p.2))

/-- `VimFaultException.description` (exceptions.py lines 143-154): the
message, then the fault list when nonempty, then the details when present. -/
def vimFaultException_description (message : String) (fault_list : List String)
    (details : List (String × String)) : String :=
  let descr := message
  let descr := if fault_list.isEmpty then descr
    else descr ++ "\nFaults: " ++ String.intercalate ", " fault_list
  if details.isEmpty then descr else descr ++ "\nDetails: " ++ details_str details

/-- One raised oslo.vmware exception value. Constructors correspond to the
classes of exceptions.py: `vimFault` to `VimFaultException`, `specific` to a
registered `VimException` subclass raised via `get_fault_class`,
`vimException` to plain `VimException`, and the remaining three to
`VimAttributeException`, `VimConnectionException` and
`VimSessionOverLoadException` (which subclass `VMwareDriverException`
directly, not `VimException`). -/
inductive RaisedError where
  | vimFault (fault_list : List String) (message : String)
      (details : List (String × String))
  | specific (cls : FaultClass) (message : String)
      (details : List (String × String))
  | vimException (message : String)
  | vimAttribute (message : String)
  | vimConnection (message : String)
  | vimSessionOverLoad (message : String)
  deriving DecidableEq, Repr

/-- Whether the exception value is an instance of `VimException`
(exceptions.py: `VimFaultException` and every registered fault class extend
`VimException`; `VimAttributeException`, `VimConnectionException` and
`VimSessionOverLoadException` extend `VMwareDriverException` directly). -/
def RaisedError.isVimException : RaisedError → Bool
  | .vimFault _ _ _ => true
  | .specific _ _ _ => true
  | .vimException _ => true
  | .vimAttribute _ => false
  | .vimConnection _ => false
  | .vimSessionOverLoad _ => false

/-! ## Session liveness check (api.py lines 360-380) -/

/-- Outcome of the underlying `vim.SessionIsActive` RPC: a boolean reply or a
raised exception. -/
inductive RpcOutcome where
  | ok (is_active : Bool)
  | raise (e : RaisedError)
  deriving DecidableEq, Repr

/-- `VMwareAPISession.is_current_session_active` (api.py lines 360-380):
`is_active` starts `False`, the `SessionIsActive` call is attempted, and only
`except exceptions.VimException` is handled (logging and keeping `False`).
Exceptions outside the `VimException` hierarchy propagate to the caller. -/
def is_current_session_active (rpc : RpcOutcome) : Except RaisedError Bool :=
  match rpc with
  | .ok b => .ok b
  | .raise e => if e.isVimException then .ok false else .error e

/-! ## Retry engine (api.py lines 49-124) -/

/-- The mutable state of one `RetryDecorator` instance (api.py lines 59-83):
configuration plus the accumulated `_retry_count` and `_sleep_time`.
`max_retry_count` is an integer because `-1` means unbounded. -/
structure RetryState where
  max_retry_count : Int
  inc_sleep_time : Nat
  max_sleep_time : Nat
  retry_count : Nat
  sleep_time : Nat
  deriving DecidableEq, Repr

/-- `RetryDecorator.__init__` (api.py lines 59-83): counters start at zero. -/
def RetryState.init (max_retry_count : Int) (inc_sleep_time max_sleep_time : Nat) :
    RetryState :=
  { max_retry_count := max_retry_count
    inc_sleep_time := inc_sleep_time
    max_sleep_time := max_sleep_time
    retry_count := 0
    sleep_time := 0 }

/-- Outcome of one invocation of the wrapped operation. -/
inductive OpOutcome (α : Type) where
  | ok (a : α)
  | raise (e : RaisedError)
  deriving DecidableEq, Repr

/-- Outcome of the whole retry loop: the `LoopingCallDone` payload, a
propagated exception, or exhaustion of the embedding fuel. -/
inductive RunOutcome (α : Type) where
  | done (a : α)
  | raised (e : RaisedError)
  | outOfFuel
  deriving DecidableEq, Repr

/-- The loop body `_func` of `RetryDecorator.__call__` (api.py lines 88-117)
driven by `loopingcall.DynamicLoopingCall` (a repository module not present
under src/). Modelled from the spec: the driver repeatedly invokes the body,
sleeping the returned duration between invocations, until the body signals
completion with a payload (`LoopingCallDone`) or lets an exception escape.
Per body invocation, with `ops k` the outcome of the k-th call of the
decorated function `f`:
* success ends the loop with the result;
* an exception satisfying the suggested-exception test is re-raised when
  `max_retry_count != -1 and retry_count >= max_retry_count`, and otherwise
  swallowed while `retry_count` and `sleep_time` are incremented and the loop
  continues;
* any other exception propagates at once.
Returns the final decorator state, the number of invocations of `f`, and the
loop outcome. `fuel` bounds the recursion of the embedding only; every claim
settled below supplies enough fuel for the run to finish. -/
def retry_run {α : Type} (retryable : RaisedError → Bool) (ops : Nat → OpOutcome α) :
    Nat → RetryState → Nat → RetryState × Nat × RunOutcome α
  | 0, st, k => (st, k, .outOfFuel)
  | fuel + 1, st, k =>
    match ops k with
    | .ok a => (st, k + 1, .done a)
    | .raise e =>
      if retryable e then
        if st.max_retry_count ≠ -1 ∧ (st.retry_count : Int) ≥ st.max_retry_count then
          (st, k + 1, .raised e)
        else
          retry_run retryable ops fuel
            { st with retry_count := st.retry_count + 1,
                      sleep_time := st.sleep_time + st.inc_sleep_time }
            (k + 1)
      else (st, k + 1, .raised e)

/-- One call of the function returned by `RetryDecorator.__call__`
(api.py lines 119-124), started from the decorator state `st`: the state is
the instance state `self`, so it is whatever the previous call left behind. -/
def wrapped_call {α : Type} (retryable : RaisedError → Bool) (ops : Nat → OpOutcome α)
    (fuel : Nat) (st : RetryState) : RetryState × Nat × RunOutcome α :=
  retry_run retryable ops fuel st 0

/-- The suggested-exception set of the decorator on `_create_session`
(api.py line 229): `(exceptions.VimConnectionException,)`. -/
def create_session_retryable : RaisedError → Bool
  | .vimConnection _ => true
  | _ => false

/-- The suggested-exception set of the decorator built inside `invoke_api`
(api.py lines 295-297): `(VimSessionOverLoadException, VimConnectionException)`. -/
def invoke_api_retryable : RaisedError → Bool
  | .vimConnection _ => true
  | .vimSessionOverLoad _ => true
  | _ => false

/-! ## The RPC facade `invoke_api` (api.py lines 279-358) -/

/-- `_trunc_id(session_id)` (api.py lines 42-45): the last five characters of
the session id, suitable for logging; `none` stays `none`. -/
def trunc_id (session_id : Option String) : Option String :=
  match session_id with
  | some s => some (s.drop (s.length - 5))
  | none => none

/-- The message of the `VimConnectionException` raised on the
inactive-session path of `_invoke_api` (api.py lines 321-327). -/
def inactive_session_msg (session_id : Option String) (module method : String) :
    String :=
  "Current session: " ++ (trunc_id session_id).getD "None" ++
    " is inactive; re-creating the session while invoking method " ++
    module ++ "." ++ method ++ "."

/-- Observable actions of one `_invoke_api` attempt, in order of occurrence:
the transport invocation `api_method(*args)`, a call of
`is_current_session_active`, and a call of `_create_session`. -/
inductive Event where
  | transportCall
  | livenessCheck
  | createSession
  deriving DecidableEq, Repr

/-- What one `_invoke_api` attempt ends with: a returned value or a raised
exception. Results are modelled as lists so that the empty-response return
`[]` of api.py line 318 is representable. -/
inductive AttemptResult where
  | ret (r : List String)
  | err (e : RaisedError)
  deriving DecidableEq, Repr

/-- One attempt of `_invoke_api` (api.py lines 298-356), as a function of the
transport outcome (`api_method(*args, **kwargs)` returning or raising) and of
the boolean that `is_current_session_active` reports on this attempt.
Branches, in source order:
* the call returns: its value is returned;
* `VimFaultException` with `NOT_AUTHENTICATED` in the fault list: if the
  session is active, return the empty response `[]`; otherwise call
  `_create_session()` and raise `VimConnectionException(excep_msg, excep)`;
* other `VimFaultException`: when the fault list is nonempty and its first
  name is registered, raise that class with `str(excep)` and the original
  details; otherwise re-raise the original exception — no session activity;
* `VimConnectionException`: re-raise it, after re-creating the session when
  the liveness check says the session is no longer active;
* every other exception propagates untouched.
The result lists the events in order next to the attempt outcome. -/
def invoke_api_attempt (transport : OpOutcome (List String)) (is_active : Bool)
    (session_id : Option String) (module method : String) :
    List Event × AttemptResult :=
  match transport with
  | .ok r => ([.transportCall], .ret r)
  | .raise (.vimFault fault_list message details) =>
    if NOT_AUTHENTICATED ∈ fault_list then
      if is_active then
        ([.transportCall, .livenessCheck], .ret [])
      else
        ([.transportCall, .livenessCheck, .createSession],
         .err (.vimConnection (inactive_session_msg session_id module method)))
    else
      ([.transportCall],
       .err (match fault_list with
         | [] => .vimFault fault_list message details
         | fault :: rest =>
           match get_fault_class fault with
           | some clazz =>
             .specific clazz
               (vimFaultException_description message (fault :: rest) details)
               details
           | none => .vimFault (fault :: rest) message details))
  | .raise (.vimConnection message) =>
    ([.transportCall, .livenessCheck] ++ if is_active then [] else [.createSession],
     .err (.vimConnection message))
  | .raise e => ([.transportCall], .err e)

/-- `invoke_api` (api.py lines 279-358): the attempt wrapped by a fresh
`RetryDecorator(max_retry_count=api_retry_count, exceptions=(VimSessionOverLoadException, VimConnectionException))`.
`transport k` and `active k` give the transport outcome and the liveness
answer at the k-th attempt. Returns the final retry state, the number of
transport invocations and the run outcome. -/
def invoke_api_run (api_retry_count : Int) (transport : Nat → OpOutcome (List String))
    (active : Nat → Bool) (session_id : Option String) (module method : String)
    (fuel : Nat) : RetryState × Nat × RunOutcome (List String) :=
  wrapped_call invoke_api_retryable
    (fun k =>
      match invoke_api_attempt (transport k) (active k) session_id module method with
      | (_, .ret r) => .ok r
      | (_, .err e) => .raise e)
    fuel (RetryState.init api_retry_count 10 60)

/-! ## Session creation (api.py lines 229-260) -/

/-- The server reply to the `Login` RPC: the session object with its `key`
and its server-returned `userName`. -/
structure LoginSession where
  key : String
  userName : String
  deriving DecidableEq, Repr

/-- The session fields of `VMwareAPISession` that `_create_session` touches. -/
structure SessionState where
  session_id : Option String
  session_username : Option String
  deriving DecidableEq, Repr

/-- Python truthiness of `self._session_id` (an `Optional[str]`): `None` and
the empty string are falsy. -/
def sessionIdTruthy (st : SessionState) : Bool :=
  match st.session_id with
  | none => false
  | some s => s ≠ ""

/-- The body of `_create_session` once the lock is held (api.py lines
231-260), as a function of the current state, the boolean that
`is_current_session_active()` would report, and the session object that the
`Login` RPC would return. If `self._session_id` is truthy and the session is
active the method returns immediately; otherwise it logs in and stores
`session.key` and `session.userName`. The boolean in the result records
whether the `Login` RPC was issued. -/
def create_session_step (st : SessionState) (active : Bool)
    (login : LoginSession) : SessionState × Bool :=
  if sessionIdTruthy st && active then
    (st, false)
  else
    ({ session_id := some login.key, session_username := some login.userName },
     true)

/-! ## Transport fault normalization (service.py lines 386-414) -/

/-- Python `s.endswith(suffix)`: whether `suffix` is a suffix of `s`,
expressed on the character lists of the strings. -/
def str_endswith (s suffix : String) : Bool :=
  suffix.data.isSuffixOf s.data

/-- Fault-type normalization inside the `suds.WebFault` handler of
`Service.__getattr__.request_handler` (service.py lines 402-409): a fault
type ending with `SecurityError` or with `NotAuthenticated` becomes
`NotAuthenticated`. -/
def normalize_fault_type (fault_type : String) : String :=
  if str_endswith fault_type SECURITY_ERROR || str_endswith fault_type NOT_AUTHENTICATED then
    NOT_AUTHENTICATED
  else fault_type

/-- The fault list of the `VimFaultException` built from a `suds.WebFault`
(service.py lines 398-414): each fault type in the detail children,
normalized. -/
def webfault_fault_list (fault_types : List String) : List String :=
  fault_types.map normalize_fault_type

/-! ## Task poller (api.py lines 382-448) -/

/-- The slice of the `task_info` payload that `_poll_task` inspects: the
`state` string and, for non-successful terminal states, the embedded
`error` fault decomposed for `translate_fault` (fault class name and
localized message). -/
structure TaskInfo where
  state : String
  error_fault_name : String
  error_msg : String
  deriving DecidableEq, Repr

/-- Decision taken by one execution of `_poll_task` (api.py lines 432-448):
states `queued` and `running` let the fixed-interval loop continue; `success`
ends the loop with `LoopingCallDone(task_info)`, which `wait_for_task`
returns; any other state raises `translate_fault(task_info.error)`. -/
inductive PollStep where
  | continuePolling
  | done (payload : TaskInfo)
  | raised (e : TranslatedException)
  deriving DecidableEq, Repr

/-- One execution of `_poll_task` on a successfully read `task_info`
(api.py lines 432-448). -/
def poll_task_step (task_info : TaskInfo) : PollStep :=
  if task_info.state = "queued" ∨ task_info.state = "running" then
    .continuePolling
  else if task_info.state = "success" then
    .done task_info
  else
    .raised (translate_fault task_info.error_fault_name task_info.error_msg)

/-- Terminal outcome of `wait_for_task` over a finite observation sequence:
the returned payload, the raised translated error, or still pending when the
sequence ran out before a terminal state. -/
inductive TaskRunOutcome where
  | success (payload : TaskInfo)
  | raised (e : TranslatedException)
  | pending
  deriving DecidableEq, Repr

/-- `wait_for_task` (api.py lines 382-398) over the finite sequence of
`task_info` values the successive polls would read: polls in order, stopping
at the first terminal step. Returns the number of polls issued and the
outcome. -/
def poll_task_run : List TaskInfo → Nat × TaskRunOutcome
  | [] => (0, .pending)
  | task_info :: rest =>
    match poll_task_step task_info with
    | .continuePolling =>
      let (n, outcome) := poll_task_run rest
      (n + 1, outcome)
    | .done payload => (1, .success payload)
    | .raised e => (1, .raised e)

/-! ## Dynamic RPC dispatch (service.py lines 339-448) -/

/-- A managed object reference: `value` and `type_` fields
(vim_util.get_moref builds one from two strings). -/
structure Moref where
  value : String
  type_ : String
  deriving DecidableEq, Repr

/-- The `managed_object` argument of the generated `request_handler`
(service.py line 342): a string, a managed object reference, or `None`. -/
inductive MoArg where
  | asString (s : String)
  | asMoref (m : Moref)
  | null
  deriving DecidableEq, Repr

/-- The argument preprocessing at the top of `request_handler` (service.py
lines 356-362): a string is converted with
`vim_util.get_moref(managed_object, managed_object)`, and `None` short
circuits the handler. -/
def resolve_managed_object : MoArg → Option Moref
  | .asString s => some { value := s, type_ := s }
  | .asMoref m => some m
  | .null => none

/-- `request_handler(managed_object, **kwargs)` (service.py lines 342-448)
up to its remote invocation: when the resolved managed object is `None` the
handler returns the bare `None` (modelled as result `none`) without issuing
the request; otherwise the remote call `request(managed_object, **kwargs)`
is issued on the resolved reference and its outcome is the handler outcome.
The `Nat` counts the remote requests issued.
`remote` gives, for each managed object reference, the outcome of that
remote call after the fault handling of lines 381-447. -/
def request_handler (managed_object : MoArg)
    (remote : Moref → OpOutcome (List String)) :
    Nat × Option (AttemptResult) :=
  match resolve_managed_object managed_object with
  | none => (0, none)
  | some m =>
    (1, some (match remote m with
      | .ok r => .ret r
      | .raise e => .err e))

/-! ## Theorems settling the claims -/

/-- C10: for every remote API method dispatched through the service object
dynamic attribute dispatch, when the managed-object argument passed to the
generated request handler is `None`, the handler returns `None` immediately,
issuing no remote request and raising no error, whatever the remote call
would have done. -/
theorem c10_null_managed_object_short_circuit
    (remote : Moref → OpOutcome (List String)) :
    request_handler .null remote = (0, none) := rfl

/-- C4 counterexample: the claim says `is_current_session_active` returns
`False` on every error of the liveness RPC, connection-kind errors included;
but a `VimConnectionException` raised by `SessionIsActive` is not caught by
the `except exceptions.VimException` clause (api.py line 374, since
`VimConnectionException` extends `VMwareDriverException`, not
`VimException`) and propagates to the caller. -/
theorem c4_counterexample :
    is_current_session_active
        (.raise (.vimConnection "requests error in SessionIsActive.")) =
      .error (.vimConnection "requests error in SessionIsActive.") ∧
    is_current_session_active
        (.raise (.vimConnection "requests error in SessionIsActive.")) ≠
      .ok false := by
  exact ⟨rfl, fun h => Except.noConfusion h⟩

/-- C4 amended: `is_current_session_active` returns the RPC reply when the
liveness RPC succeeds, and degrades to `False` exactly for errors inside the
`VimException` hierarchy (structured `VimFaultException` faults, the
registered fault classes, plain `VimException`); errors outside that
hierarchy — `VimAttributeException`, `VimConnectionException`,
`VimSessionOverLoadException` — propagate to the caller. -/
theorem c4_amended_liveness_check_degrades (b : Bool) (msg : String)
    (fault_list : List String) (details : List (String × String))
    (cls : FaultClass) :
    is_current_session_active (.ok b) = .ok b ∧
    is_current_session_active (.raise (.vimFault fault_list msg details)) = .ok false ∧
    is_current_session_active (.raise (.specific cls msg details)) = .ok false ∧
    is_current_session_active (.raise (.vimException msg)) = .ok false ∧
    is_current_session_active (.raise (.vimAttribute msg)) =
      .error (.vimAttribute msg) ∧
    is_current_session_active (.raise (.vimConnection msg)) =
      .error (.vimConnection msg) ∧
    is_current_session_active (.raise (.vimSessionOverLoad msg)) =
      .error (.vimSessionOverLoad msg) :=
  ⟨rfl, rfl, rfl, rfl, rfl, rfl, rfl⟩

/-- C7: every entry of the built-in fault registry is returned by
`get_fault_class` under its name, the registered exception classes are
pairwise distinct, and for every name outside the registry the lookup never
fails — `get_fault_class` yields `None` and `translate_fault` falls back to
the generic `VimFaultException` whose fault list preserves the unregistered
name for diagnostics. -/
theorem c7_fault_taxonomy_round_trip :
    (∀ p ∈ fault_classes_registry, get_fault_class p.1 = some p.2) ∧
    (fault_classes_registry.map (fun p => p.2)).Nodup ∧
    (∀ name msg, name ∉ fault_classes_registry.map (fun p => p.1) →
      get_fault_class name = none ∧
      translate_fault name msg = .vimFault [name] msg) := by
  refine ⟨by decide, by decide, ?_⟩
  intro name msg h
  have hnone : fault_classes_registry.find? (fun p => p.1 == name) = none := by
    rw [List.find?_eq_none]
    intro x hx
    simp only [beq_iff_eq]
    intro heq
    exact h (heq ▸ List.mem_map_of_mem (fun p => p.1) hx)
  constructor
  · simp [get_fault_class, hnone]
  · simp [translate_fault, get_fault_class, hnone]

/-- C7 witness: the round-trip theorem applied to the registered name
`FileNotFound` and the unregistered name `UnknownFault`. -/
theorem c7_witness :
    get_fault_class "FileNotFound" = some .FileNotFoundException ∧
    get_fault_class "UnknownFault" = none ∧
    translate_fault "UnknownFault" "msg" = .vimFault ["UnknownFault"] "msg" := by
  refine ⟨?_, ?_, ?_⟩
  · exact c7_fault_taxonomy_round_trip.1 ("FileNotFound", .FileNotFoundException)
      (by decide)
  · exact (c7_fault_taxonomy_round_trip.2.2 "UnknownFault" "msg" (by decide)).1
  · exact (c7_fault_taxonomy_round_trip.2.2 "UnknownFault" "msg" (by decide)).2

/-- C6: `_create_session` under the lock is idempotent with respect to a live
session — when a session id is set (truthy) and the liveness check reports
the session active, it returns without issuing the `Login` RPC and leaves
both session fields unchanged; on every other combination it issues `Login`
and stores the server-returned `session.key` and `session.userName` (the
state transition never consults the caller-supplied username). -/
theorem c6_create_session_idempotent (st : SessionState) (active : Bool)
    (login : LoginSession) :
    (sessionIdTruthy st = true → active = true →
      create_session_step st active login = (st, false)) ∧
    (sessionIdTruthy st = false ∨ active = false →
      create_session_step st active login =
        ({ session_id := some login.key,
           session_username := some login.userName }, true)) := by
  constructor
  · intro h1 h2
    simp [create_session_step, h1, h2]
  · intro h
    rcases h with h | h <;> simp [create_session_step, h]

/-- C6 witness: the idempotence theorem applied to a live session (no login)
and to a fresh session (login stores the server-returned identity). -/
theorem c6_witness :
    create_session_step
        { session_id := some "sid-1", session_username := some "Admin" } true
        { key := "sid-2", userName := "ADMIN" } =
      ({ session_id := some "sid-1", session_username := some "Admin" }, false) ∧
    create_session_step { session_id := none, session_username := none } false
        { key := "sid-2", userName := "ADMIN" } =
      ({ session_id := some "sid-2", session_username := some "ADMIN" }, true) := by
  constructor
  · exact (c6_create_session_idempotent
      { session_id := some "sid-1", session_username := some "Admin" } true
      { key := "sid-2", userName := "ADMIN" }).1 (by decide) rfl
  · exact (c6_create_session_idempotent
      { session_id := none, session_username := none } false
      { key := "sid-2", userName := "ADMIN" }).2 (Or.inl (by decide))

/-- Polling a sequence whose first elements all let the loop continue just
adds their number to the poll count of the remainder. -/
theorem poll_task_run_append_continue (pre rest : List TaskInfo)
    (hpre : ∀ x ∈ pre, poll_task_step x = .continuePolling) :
    poll_task_run (pre ++ rest) =
      ((poll_task_run rest).1 + pre.length, (poll_task_run rest).2) := by
  induction pre with
  | nil => simp
  | cons a l ih =>
    have ha : poll_task_step a = .continuePolling :=
      hpre a (List.mem_cons_self a l)
    have hl : ∀ x ∈ l, poll_task_step x = .continuePolling :=
      fun x hx => hpre x (List.mem_cons_of_mem a hx)
    simp only [List.cons_append, poll_task_run, ha, List.length_cons, List.append_eq]
    rw [ih hl]
    simp [Nat.add_assoc]

/-- C8: in `_poll_task`, the states `queued` and `running` are the
non-terminal ones; over any observation sequence whose first non-terminal
part reports only those states, a `success` state terminates the loop on
that same poll returning the full task info payload, and any other state
string terminates the loop on that same poll raising
`translate_fault(task_info.error)` — later observations are never polled. -/
theorem c8_poll_task_terminal_states (pre : List TaskInfo) (t : TaskInfo)
    (post : List TaskInfo)
    (hpre : ∀ x ∈ pre, x.state = "queued" ∨ x.state = "running") :
    (∀ x ∈ pre, poll_task_step x = .continuePolling) ∧
    (t.state = "success" →
      poll_task_run (pre ++ t :: post) = (pre.length + 1, .success t)) ∧
    (t.state ≠ "queued" → t.state ≠ "running" → t.state ≠ "success" →
      poll_task_run (pre ++ t :: post) =
        (pre.length + 1,
         .raised (translate_fault t.error_fault_name t.error_msg))) := by
  have hsteps : ∀ x ∈ pre, poll_task_step x = .continuePolling := by
    intro x hx
    rcases hpre x hx with h | h <;> simp [poll_task_step, h]
  refine ⟨hsteps, ?_, ?_⟩
  · intro hs
    have ht : poll_task_step t = .done t := by
      simp [poll_task_step, hs]
    rw [poll_task_run_append_continue pre (t :: post) hsteps]
    simp only [poll_task_run, ht]
    simp [Nat.add_comm]
  · intro h1 h2 h3
    have ht : poll_task_step t =
        .raised (translate_fault t.error_fault_name t.error_msg) := by
      simp [poll_task_step, h1, h2, h3]
    rw [poll_task_run_append_continue pre (t :: post) hsteps]
    simp only [poll_task_run, ht]
    simp [Nat.add_comm]

/-- C8 witness: the terminal-state theorem applied to the sequences
`[queued, running, success]` (three polls, payload returned), `[queued,
error]` (two polls, translated fault raised) and `[unknown]` (raises on the
first poll); later observations after the terminal one are not polled. -/
theorem c8_witness :
    poll_task_run
        [{ state := "queued", error_fault_name := "", error_msg := "" },
         { state := "running", error_fault_name := "", error_msg := "" },
         { state := "success", error_fault_name := "", error_msg := "" }] =
      (3, .success { state := "success", error_fault_name := "", error_msg := "" }) ∧
    poll_task_run
        [{ state := "queued", error_fault_name := "", error_msg := "" },
         { state := "error", error_fault_name := "FileNotFound",
           error_msg := "missing" }] =
      (2, .raised (.specific .FileNotFoundException "missing")) ∧
    poll_task_run
        [{ state := "unknown", error_fault_name := "Oddity", error_msg := "m" },
         { state := "running", error_fault_name := "", error_msg := "" }] =
      (1, .raised (.vimFault ["Oddity"] "m")) := by
  refine ⟨?_, ?_, ?_⟩
  · have h := c8_poll_task_terminal_states
      [{ state := "queued", error_fault_name := "", error_msg := "" },
       { state := "running", error_fault_name := "", error_msg := "" }]
      { state := "success", error_fault_name := "", error_msg := "" } []
      (by decide)
    simpa using h.2.1 rfl
  · have h := c8_poll_task_terminal_states
      [{ state := "queued", error_fault_name := "", error_msg := "" }]
      { state := "error", error_fault_name := "FileNotFound",
        error_msg := "missing" } []
      (by decide)
    simpa using h.2.2 (by decide) (by decide) (by decide)
  · have h := c8_poll_task_terminal_states []
      { state := "unknown", error_fault_name := "Oddity", error_msg := "m" }
      [{ state := "running", error_fault_name := "", error_msg := "" }]
      (by decide)
    simpa using h.2.2 (by decide) (by decide) (by decide)

/-- C5: a server-reported fault whose type name ends with `SecurityError` is
normalized by the transport fault handler to `NotAuthenticated` before the
`VimFaultException` is raised, so `invoke_api` treats it exactly like a
`NotAuthenticated` fault: session-expiry disambiguation via the liveness
check, returning the empty response when the session is active and
refresh-then-retryable-raise when it is not. -/
theorem c5_security_error_as_not_authenticated (fault_types : List String)
    (ft : String) (hft : ft ∈ fault_types)
    (hsec : str_endswith ft SECURITY_ERROR = true)
    (msg : String) (details : List (String × String)) (active : Bool)
    (session_id : Option String) (module method : String) :
    NOT_AUTHENTICATED ∈ webfault_fault_list fault_types ∧
    invoke_api_attempt
        (.raise (.vimFault (webfault_fault_list fault_types) msg details))
        active session_id module method =
      (if active then ([.transportCall, .livenessCheck], .ret [])
       else ([.transportCall, .livenessCheck, .createSession],
             .err (.vimConnection (inactive_session_msg session_id module method)))) := by
  have hnorm : normalize_fault_type ft = NOT_AUTHENTICATED := by
    simp [normalize_fault_type, hsec]
  have hmem : NOT_AUTHENTICATED ∈ webfault_fault_list fault_types := by
    rw [← hnorm]
    exact List.mem_map_of_mem normalize_fault_type hft
  refine ⟨hmem, ?_⟩
  cases active <;> simp [invoke_api_attempt, hmem]

/-- C5 witness: the normalization theorem applied to the PBM-namespaced
fault type of vSphere 6.5 session expiry, with an active session. -/
theorem c5_witness :
    NOT_AUTHENTICATED ∈ webfault_fault_list ["pbm:SecurityError"] ∧
    invoke_api_attempt
        (.raise (.vimFault (webfault_fault_list ["pbm:SecurityError"]) "expired" []))
        true (some "sessionid") "vim_util" "get_objects" =
      ([.transportCall, .livenessCheck], .ret []) := by
  have h := c5_security_error_as_not_authenticated ["pbm:SecurityError"]
    "pbm:SecurityError" (by decide) (by decide) "expired" [] true
    (some "sessionid") "vim_util" "get_objects"
  exact ⟨h.1, by simpa using h.2⟩

/-- C1: when the transport raises a `VimFaultException` whose fault list
contains `NotAuthenticated`, `invoke_api` returns the empty response without
raising and without re-creating the session when the liveness check reports
the session active; when the check reports it inactive, the attempt calls
`_create_session` and then raises a `VimConnectionException` (not the
original fault), which is in the outer retry set, so the retry engine
re-issues the original call — shown by the final conjunct, where the first
attempt hits the inactive-session path and the re-issued call succeeds. -/
theorem c1_not_authenticated_disambiguation (fault_list : List String)
    (hna : NOT_AUTHENTICATED ∈ fault_list) (msg : String)
    (details : List (String × String)) (session_id : Option String)
    (module method : String) (r : List String) :
    invoke_api_attempt (.raise (.vimFault fault_list msg details)) true
        session_id module method =
      ([.transportCall, .livenessCheck], .ret []) ∧
    invoke_api_attempt (.raise (.vimFault fault_list msg details)) false
        session_id module method =
      ([.transportCall, .livenessCheck, .createSession],
       .err (.vimConnection (inactive_session_msg session_id module method))) ∧
    invoke_api_retryable
        (.vimConnection (inactive_session_msg session_id module method)) = true ∧
    invoke_api_run 10
        (fun k => if k = 0 then .raise (.vimFault fault_list msg details)
          else .ok r)
        (fun _ => false) session_id module method 12 =
      ({ RetryState.init 10 10 60 with retry_count := 1, sleep_time := 10 },
       2, .done r) := by
  refine ⟨by simp [invoke_api_attempt, hna], by simp [invoke_api_attempt, hna],
    rfl, ?_⟩
  simp [invoke_api_run, wrapped_call, retry_run, invoke_api_attempt, hna,
    invoke_api_retryable, RetryState.init]

/-- C1 witness: the disambiguation theorem applied to the fault list
`[NotAuthenticated]`. -/
theorem c1_witness :
    invoke_api_attempt (.raise (.vimFault ["NotAuthenticated"] "empty" []))
        true (some "sessionid") "vim_util" "get_objects" =
      ([.transportCall, .livenessCheck], .ret []) ∧
    invoke_api_attempt (.raise (.vimFault ["NotAuthenticated"] "empty" []))
        false (some "sessionid") "vim_util" "get_objects" =
      ([.transportCall, .livenessCheck, .createSession],
       .err (.vimConnection
         (inactive_session_msg (some "sessionid") "vim_util" "get_objects"))) := by
  have h := c1_not_authenticated_disambiguation ["NotAuthenticated"]
    (by decide) "empty" [] (some "sessionid") "vim_util" "get_objects" []
  exact ⟨h.1, h.2.1⟩

/-- C3: when the transport raises a `VimFaultException` whose fault list does
not contain `NotAuthenticated`, `invoke_api` raises on the very first
attempt (one transport invocation, no retry, retry counters untouched): the
specific registered class for the first fault name when there is one,
carrying the description of the original fault and its details, and the
original `VimFaultException` unchanged otherwise. -/
theorem c3_other_fault_raises_without_retry (fault_list : List String)
    (hna : NOT_AUTHENTICATED ∉ fault_list) (msg : String)
    (details : List (String × String)) (session_id : Option String)
    (module method : String) (api_retry_count : Int) (active : Nat → Bool)
    (fuel : Nat) (hfuel : 0 < fuel) :
    invoke_api_run api_retry_count
        (fun _ => .raise (.vimFault fault_list msg details)) active
        session_id module method fuel =
      (RetryState.init api_retry_count 10 60, 1,
       .raised (match fault_list with
         | [] => .vimFault [] msg details
         | fault :: rest =>
           match get_fault_class fault with
           | some clazz =>
             .specific clazz
               (vimFaultException_description msg (fault :: rest) details)
               details
           | none => .vimFault (fault :: rest) msg details)) := by
  cases fuel with
  | zero => omega
  | succ f =>
    cases fault_list with
    | nil =>
      simp [invoke_api_run, wrapped_call, retry_run, invoke_api_attempt,
        invoke_api_retryable]
    | cons fault rest =>
      cases hcl : get_fault_class fault with
      | none =>
        simp [invoke_api_run, wrapped_call, retry_run, invoke_api_attempt,
          hna, hcl, invoke_api_retryable]
      | some clazz =>
        simp [invoke_api_run, wrapped_call, retry_run, invoke_api_attempt,
          hna, hcl, invoke_api_retryable]

/-- C3 witness: the no-retry theorem at the fault list `[FileNotFound]` (the
end-to-end scenario of the spec): one transport call, the
`FileNotFoundException` class raised with the original message and details. -/
theorem c3_witness :
    invoke_api_run 10
        (fun _ => .raise (.vimFault ["FileNotFound"] "File error" [("file", "a.vmdk")]))
        (fun _ => true) (some "sessionid") "vim_util" "get_objects" 1 =
      (RetryState.init 10 10 60, 1,
       .raised (.specific .FileNotFoundException
         (vimFaultException_description "File error" ["FileNotFound"]
           [("file", "a.vmdk")])
         [("file", "a.vmdk")])) := by
  have h := c3_other_fault_raises_without_retry ["FileNotFound"] (by decide)
    "File error" [("file", "a.vmdk")] (some "sessionid") "vim_util"
    "get_objects" 10 (fun _ => true) 1 (by decide)
  simpa using h

/-- Exhaustion of a bounded retry budget: from a decorator state whose
counter stands at `c` with `max_retry_count = c + d`, an operation raising a
suggested exception on every invocation is invoked exactly `d + 1` more
times, the counter ends at the budget, and the last exception propagates. -/
theorem retry_run_exhausts_budget {α : Type} (retryable : RaisedError → Bool)
    (errs : Nat → RaisedError) (hr : ∀ j, retryable (errs j) = true) :
    ∀ (d fuel c k inc maxs sleep : Nat), d + 1 ≤ fuel →
      retry_run retryable (fun j => (.raise (errs j) : OpOutcome α)) fuel
          ⟨((c + d : Nat) : Int), inc, maxs, c, sleep⟩ k =
        (⟨((c + d : Nat) : Int), inc, maxs, c + d, sleep + d * inc⟩,
         k + d + 1, .raised (errs (k + d))) := by
  intro d
  induction d with
  | zero =>
    intro fuel c k inc maxs sleep hfuel
    cases fuel with
    | zero => omega
    | succ f =>
      have hcond : (((c + 0 : Nat) : Int) ≠ -1) ∧
          ((c : Int) ≥ ((c + 0 : Nat) : Int)) := ⟨by omega, by omega⟩
      simp only [retry_run, hr, if_true]
      rw [if_pos hcond]
      simp
  | succ d ih =>
    intro fuel c k inc maxs sleep hfuel
    cases fuel with
    | zero => omega
    | succ f =>
      have hcond : ¬ ((((c + (d + 1) : Nat) : Int) ≠ -1) ∧
          ((c : Int) ≥ ((c + (d + 1) : Nat) : Int))) := by
        intro h
        have := h.2
        omega
      simp only [retry_run, hr, if_true]
      rw [if_neg hcond]
      have hmk : (⟨((c + (d + 1) : Nat) : Int), inc, maxs, c + 1, sleep + inc⟩ :
          RetryState) =
          ⟨(((c + 1) + d : Nat) : Int), inc, maxs, c + 1, sleep + inc⟩ := by
        have hmax : ((c + (d + 1) : Nat) : Int) = (((c + 1) + d : Nat) : Int) := by
          omega
        rw [hmax]
      rw [hmk, ih f (c + 1) (k + 1) inc maxs (sleep + inc) (by omega)]
      have h1 : (c + 1) + d = c + (d + 1) := by omega
      have h2 : (k + 1) + d = k + (d + 1) := by omega
      have h3 : (sleep + inc) + d * inc = sleep + (d + 1) * inc := by
        rw [Nat.succ_mul]
        omega
      rw [h1, h2, h3]

/-- C2: for every bound `N ≥ 0` and every operation raising an exception of
the decorator's suggested set on each invocation, the wrapped function
invokes the operation exactly `N + 1` times and then propagates the most
recent exception; `N = 0` gives a single attempt. -/
theorem c2_retry_bound {α : Type} (N inc maxs fuel : Nat)
    (retryable : RaisedError → Bool) (errs : Nat → RaisedError)
    (hr : ∀ j, retryable (errs j) = true) (hfuel : N + 1 ≤ fuel) :
    wrapped_call retryable (fun j => (.raise (errs j) : OpOutcome α)) fuel
        (RetryState.init (N : Int) inc maxs) =
      (⟨(N : Int), inc, maxs, N, N * inc⟩, N + 1, .raised (errs N)) := by
  have h := retry_run_exhausts_budget (α := α) retryable errs hr N fuel 0 0
    inc maxs 0 hfuel
  simpa [wrapped_call, RetryState.init] using h

/-- C2 witness: the retry-bound theorem applied with the retry set of
`invoke_api` to an operation that always raises
`VimSessionOverLoadException`: one attempt for `N = 0`, three for `N = 2`. -/
theorem c2_witness :
    wrapped_call invoke_api_retryable
        (fun _ => (.raise (.vimSessionOverLoad "overload") : OpOutcome (List String)))
        1 (RetryState.init 0 10 60) =
      (⟨0, 10, 60, 0, 0⟩, 1, .raised (.vimSessionOverLoad "overload")) ∧
    wrapped_call invoke_api_retryable
        (fun _ => (.raise (.vimSessionOverLoad "overload") : OpOutcome (List String)))
        3 (RetryState.init 2 10 60) =
      (⟨2, 10, 60, 2, 20⟩, 3, .raised (.vimSessionOverLoad "overload")) := by
  constructor
  · have h := c2_retry_bound (α := List String) 0 10 60 1 invoke_api_retryable
      (fun _ => .vimSessionOverLoad "overload") (fun _ => rfl) (by omega)
    simpa using h
  · have h := c2_retry_bound (α := List String) 2 10 60 3 invoke_api_retryable
      (fun _ => .vimSessionOverLoad "overload") (fun _ => rfl) (by omega)
    simpa using h

/-- Unbounded decorator (`max_retry_count = -1`): an operation that raises a
suggested exception on its first `r` invocations and then succeeds ends the
run with the incoming counters increased by `r` — relative to the incoming
state, never reset. -/
theorem retry_run_unbounded_accumulates {α : Type}
    (retryable : RaisedError → Bool) (ops : Nat → OpOutcome α) (a : α) :
    ∀ (r fuel k inc maxs c sleep : Nat),
      (∀ j, j < r → ∃ e, ops (k + j) = .raise e ∧ retryable e = true) →
      ops (k + r) = .ok a → r + 1 ≤ fuel →
      retry_run retryable ops fuel ⟨-1, inc, maxs, c, sleep⟩ k =
        (⟨-1, inc, maxs, c + r, sleep + r * inc⟩, k + r + 1, .done a) := by
  intro r
  induction r with
  | zero =>
    intro fuel k inc maxs c sleep hfail hok hfuel
    cases fuel with
    | zero => omega
    | succ f =>
      simp only [Nat.add_zero] at hok
      simp only [retry_run, hok]
      simp
  | succ r ih =>
    intro fuel k inc maxs c sleep hfail hok hfuel
    cases fuel with
    | zero => omega
    | succ f =>
      obtain ⟨e, he, hre⟩ := hfail 0 (by omega)
      simp only [Nat.add_zero] at he
      simp only [retry_run, he, hre, if_true]
      rw [if_neg (by simp)]
      have hfail' : ∀ j, j < r → ∃ e, ops ((k + 1) + j) = .raise e ∧
          retryable e = true := by
        intro j hj
        have := hfail (j + 1) (by omega)
        rwa [show k + (j + 1) = (k + 1) + j from by omega] at this
      have hok' : ops ((k + 1) + r) = .ok a := by
        rwa [show k + (r + 1) = (k + 1) + r from by omega] at hok
      rw [ih f (k + 1) inc maxs (c + 1) (sleep + inc) hfail' hok' (by omega)]
      have h1 : (c + 1) + r = c + (r + 1) := by omega
      have h2 : (k + 1) + r = k + (r + 1) := by omega
      have h3 : (sleep + inc) + r * inc = sleep + (r + 1) * inc := by
        rw [Nat.succ_mul]
        omega
      rw [h1, h2, h3]

/-- C9 counterexample: retry counters are retained by the decorator
instance, so a later invocation of the same wrapped function does not start
at zero. First scenario, the `_create_session` configuration
(`max_retry_count = -1`, increment 10): one transient connection error
followed by success leaves `retry_count = 1` and `sleep_time = 10` on the
instance — the state the next invocation starts from. Second scenario, the
configuration of the repository retry tests (`max_retry_count = 2`): the
first invocation of the wrapped always-failing function makes 3 attempts,
while the next invocation of the very same wrapped function, starting from
the retained counters, makes only 1 attempt instead of 3. -/
theorem c9_counterexample :
    ((wrapped_call create_session_retryable
        (fun k => if k = 0 then .raise (.vimConnection "transient")
          else (.ok () : OpOutcome Unit)) 3
        (RetryState.init (-1) 10 60)).1.retry_count = 1 ∧
     (wrapped_call create_session_retryable
        (fun k => if k = 0 then .raise (.vimConnection "transient")
          else (.ok () : OpOutcome Unit)) 3
        (RetryState.init (-1) 10 60)).1.sleep_time = 10) ∧
    ((wrapped_call create_session_retryable
        (fun _ => (.raise (.vimConnection "down") : OpOutcome Unit)) 5
        (RetryState.init 2 10 60)).2.1 = 3 ∧
     (wrapped_call create_session_retryable
        (fun _ => (.raise (.vimConnection "down") : OpOutcome Unit)) 5
        ((wrapped_call create_session_retryable
          (fun _ => (.raise (.vimConnection "down") : OpOutcome Unit)) 5
          (RetryState.init 2 10 60)).1)).2.1 = 1) := by
  decide

/-- C9 amended: retry counters are local to one `RetryDecorator` instance,
not to one invocation of the wrapped function. A freshly constructed
decorator (as `invoke_api` builds per call) starts with counter and sleep
time zero; but when one decorator instance wraps the function (as the
class-level decorator on `_create_session` does), a second invocation starts
from the state the first left behind, and its final counters add the new
retries onto the retained ones. -/
theorem c9_amended_retry_state_per_instance (inc maxs r1 r2 fuel1 fuel2 : Nat)
    (ops1 ops2 : Nat → OpOutcome Unit)
    (h1fail : ∀ j, j < r1 → ∃ e, ops1 j = .raise e ∧
      create_session_retryable e = true)
    (h1ok : ops1 r1 = .ok ())
    (h2fail : ∀ j, j < r2 → ∃ e, ops2 j = .raise e ∧
      create_session_retryable e = true)
    (h2ok : ops2 r2 = .ok ())
    (hf1 : r1 + 1 ≤ fuel1) (hf2 : r2 + 1 ≤ fuel2) :
    (RetryState.init (-1) inc maxs).retry_count = 0 ∧
    (RetryState.init (-1) inc maxs).sleep_time = 0 ∧
    wrapped_call create_session_retryable ops1 fuel1
        (RetryState.init (-1) inc maxs) =
      (⟨-1, inc, maxs, r1, r1 * inc⟩, r1 + 1, .done ()) ∧
    wrapped_call create_session_retryable ops2 fuel2
        ⟨-1, inc, maxs, r1, r1 * inc⟩ =
      (⟨-1, inc, maxs, r1 + r2, r1 * inc + r2 * inc⟩, r2 + 1, .done ()) := by
  refine ⟨rfl, rfl, ?_, ?_⟩
  · have h := retry_run_unbounded_accumulates create_session_retryable ops1 ()
      r1 fuel1 0 inc maxs 0 0 (by simpa using h1fail) (by simpa using h1ok) hf1
    simpa [wrapped_call, RetryState.init] using h
  · have h := retry_run_unbounded_accumulates create_session_retryable ops2 ()
      r2 fuel2 0 inc maxs r1 (r1 * inc) (by simpa using h2fail)
      (by simpa using h2ok) hf2
    simpa [wrapped_call] using h

/-- C9 witness: the per-instance theorem at increment 10 with one retry in
each of two successive invocations: the second invocation ends with
`retry_count = 2` and `sleep_time = 20`, continuing from the first. -/
theorem c9_witness :
    wrapped_call create_session_retryable
        (fun k => if k = 0 then .raise (.vimConnection "blip")
          else (.ok () : OpOutcome Unit)) 2
        (RetryState.init (-1) 10 60) =
      (⟨-1, 10, 60, 1, 10⟩, 2, .done ()) ∧
    wrapped_call create_session_retryable
        (fun k => if k = 0 then .raise (.vimConnection "blip")
          else (.ok () : OpOutcome Unit)) 2
        ⟨-1, 10, 60, 1, 10⟩ =
      (⟨-1, 10, 60, 2, 20⟩, 2, .done ()) := by
  have h := c9_amended_retry_state_per_instance 10 60 1 1 2 2
    (fun k => if k = 0 then .raise (.vimConnection "blip")
      else (.ok () : OpOutcome Unit))
    (fun k => if k = 0 then .raise (.vimConnection "blip")
      else (.ok () : OpOutcome Unit))
    (by intro j hj
        refine ⟨.vimConnection "blip", ?_, rfl⟩
        simp [show j = 0 from by omega])
    (by simp)
    (by intro j hj
        refine ⟨.vimConnection "blip", ?_, rfl⟩
        simp [show j = 0 from by omega])
    (by simp) (by omega) (by omega)
  exact ⟨by simpa using h.2.2.1, by simpa using h.2.2.2⟩

end OsloVmware
